import Mathlib

/-!
Shallow embedding of the device-communication core of the 2N intercom
Homebridge plugin: the Digest-aware HTTP client (`Api2NClient` in the
repository source, the variant with Digest authentication support), the
event-subscription operations built on it, the accessory's event
classification (`Intercom2NAccessory.handleEvent`), and the streaming
session manager (`CameraSource`).

Modelling conventions:
* Network and process effects are made explicit: each operation takes the
  device's HTTP responses as inputs and returns the new client state, a
  trace of the attempts/calls/effects it performs, and an `Except String`
  result mirroring the thrown `Error` messages of the source.
* `crypto.randomBytes(...).toString('hex')` (the client nonce) is modelled
  as a supply `Nat → String` indexed by a counter in the client state: one
  draw is consumed per digest computation.
* `crypto.createHash('md5')` is a Node library call, external to the
  repository; it is modelled as an explicit function parameter `md5`.
* JSON bodies arrive pre-parsed: an HTTP response carries both its raw
  body text and `bodyJson : Option (ApiResponse T)` standing for the
  outcome of `JSON.parse` (`none` = malformed body).
-/

namespace Api2N

/-- The `error` member of the device's JSON envelope. -/
structure ApiError where
  code : Int
  message : String
deriving DecidableEq, Repr

/-- The device's JSON response envelope `\x7bsuccess, result?, error?\x7d`
(`ApiResponse<T>` in `settings.ts`). -/
structure ApiResponse (T : Type) where
  success : Bool
  result : Option T := none
  error : Option ApiError := none

/-- A parsed `WWW-Authenticate` Digest challenge (`DigestChallenge` in the
source).  The `opaque` directive is stored in the field `opq`. -/
structure DigestChallenge where
  realm : String
  nonce : String
  qop : Option String := none
  opq : Option String := none
  algorithm : Option String := none
deriving DecidableEq, Repr

/-- Client credentials (the `username`/`password` fields of `Api2NClient`). -/
structure Credentials where
  username : String
  password : String
deriving DecidableEq, Repr

/-- JavaScript truthiness of a possibly-absent string: `undefined` and the
empty string are falsy. -/
def strTruthy (o : Option String) : Bool :=
  o.getD "" != ""

/-- `\w` of the challenge-parsing regex. -/
def isWordChar (c : Char) : Bool :=
  c.isAlphanum || c == '_'

/-- `\s` of the challenge-parsing regex (whitespace). -/
def isSpaceChar (c : Char) : Bool :=
  c == ' ' || c == '\t' || c == '\n' || c == '\r'

/-- The unquoted alternative `([^\s,]+)` of the key-value regex in
`parseDigestChallenge`. -/
def matchUnquoted (key : List Char) (rest : List Char) :
    Option ((String × String) × List Char) :=
  let sp := rest.span (fun c => !isSpaceChar c && c != ',')
  if sp.1.isEmpty then none
  else some ((String.mk key, String.mk sp.1), sp.2)

/-- One match of the regex `(\w+)=(?:"([^"]+)"|([^\s,]+))` starting exactly
at the head of `cs`; returns the key-value pair and the remainder after the
match. -/
def matchKeyValue (cs : List Char) : Option ((String × String) × List Char) :=
  let kp := cs.span isWordChar
  if kp.1.isEmpty then none
  else
    match kp.2 with
    | '=' :: rest2 =>
      match rest2 with
      | '"' :: rest3 =>
        let ip := rest3.span (fun c => c != '"')
        (match ip.2 with
         | '"' :: rest5 =>
           if ip.1.isEmpty then matchUnquoted kp.1 rest2
           else some ((String.mk kp.1, String.mk ip.1), rest5)
         | _ => matchUnquoted kp.1 rest2)
      | _ => matchUnquoted kp.1 rest2
    | _ => none

/-- Successive matches of the key-value regex over the parameter text, as
produced by the `while ((match = regex.exec(params)) !== null)` loop: scan
left to right, emitting each match and continuing after it.  `fuel` bounds
the recursion; one unit is spent per scan step and each step consumes at
least one character, so `fuel = length + 1` is always enough. -/
def scanAuthParams : Nat → List Char → List (String × String)
  | 0, _ => []
  | _, [] => []
  | fuel + 1, c :: rest =>
    match matchKeyValue (c :: rest) with
    | some (kv, rem) => kv :: scanAuthParams fuel rem
    | none => scanAuthParams fuel rest

/-- The `Partial<DigestChallenge>` accumulator of `parseDigestChallenge`. -/
structure PartialDigestChallenge where
  realm : Option String := none
  nonce : Option String := none
  qop : Option String := none
  opq : Option String := none
  algorithm : Option String := none
deriving DecidableEq, Repr

/-- `s.toLowerCase()` (ASCII case mapping suffices for the header
keywords this client inspects). -/
def strToLower (s : String) : String :=
  String.mk (s.toList.map Char.toLower)

/-- One iteration of the challenge-field assignment chain: lowercase the
key and store the value in the matching field. -/
def applyChallengeField (c : PartialDigestChallenge) (kv : String × String) :
    PartialDigestChallenge :=
  let key := strToLower kv.1
  if key == "realm" then { c with realm := some kv.2 }
  else if key == "nonce" then { c with nonce := some kv.2 }
  else if key == "qop" then { c with qop := some kv.2 }
  else if key == "opaque" then { c with opq := some kv.2 }
  else if key == "algorithm" then { c with algorithm := some kv.2 }
  else c

/-- `Api2NClient.parseDigestChallenge`: reject headers not starting with
`digest ` (case-insensitive), scan the `key="value"`/`key=value` pairs,
and require `realm` and `nonce` to be present. -/
def parseDigestChallenge (header : String) : Option DigestChallenge :=
  if !(List.isPrefixOf "digest ".toList (strToLower header).toList) then none
  else
    let params := header.toList.drop 7
    let kvs := scanAuthParams (params.length + 1) params
    let pc := kvs.foldl applyChallengeField {}
    if strTruthy pc.realm && strTruthy pc.nonce then
      some { realm := pc.realm.getD "", nonce := pc.nonce.getD "",
             qop := pc.qop, opq := pc.opq, algorithm := pc.algorithm }
    else none

/-- Hex digits of `n`, most significant first, with explicit recursion
fuel (the digit recursion divides by 16, so `fuel = n` is always
enough). -/
def hexDigitsAux : Nat → Nat → List Char
  | 0, _ => []
  | fuel + 1, n => if n = 0 then [] else hexDigitsAux fuel (n / 16) ++ [Nat.digitChar (n % 16)]

/-- Hex digits of `n`, most significant first (`Number.prototype.toString(16)`
without the leading-zero special case). -/
def hexDigits (n : Nat) : List Char :=
  hexDigitsAux n n

/-- JavaScript `n.toString(16)` for a non-negative number. -/
def natToHexStr (n : Nat) : String :=
  if n = 0 then "0" else String.mk (hexDigits n)

/-- JavaScript `s.padStart(len, '0')`. -/
def padStartZeros (s : String) (len : Nat) : String :=
  String.mk (List.replicate (len - s.length) '0' ++ s.toList)

/-- The mutable authentication state of `Api2NClient`: `nonceCount`,
`lastDigestChallenge`, and the index of the next client-nonce draw from
the random supply. -/
structure AuthState where
  nonceCount : Nat := 0
  lastDigestChallenge : Option DigestChallenge := none
  rngIdx : Nat := 0
deriving DecidableEq, Repr

/-- The data assembled by `generateDigestAuth`: the rendered header and
the `nc`, `cnonce` and `response` values it interpolates. -/
structure DigestAuth where
  header : String
  nc : String
  cnonce : String
  response : String
deriving DecidableEq, Repr

/-- `Api2NClient.generateDigestAuth`: bump `nonceCount`, render it as
zero-padded hex, draw a fresh client nonce from the supply, compute
`HA1 = MD5(username:realm:password)`, `HA2 = MD5(method:uri)` and the
digest response, and render the Authorization header. -/
def generateDigestAuth (md5 : String → String) (cred : Credentials)
    (supply : Nat → String) (method uri : String)
    (challenge : DigestChallenge) (s : AuthState) : DigestAuth × AuthState :=
  let algorithm := if strTruthy challenge.algorithm then challenge.algorithm.getD "" else "MD5"
  let nonceCount := s.nonceCount + 1
  let nc := padStartZeros (natToHexStr nonceCount) 8
  let cnonce := supply s.rngIdx
  let ha1 := md5 (cred.username ++ ":" ++ challenge.realm ++ ":" ++ cred.password)
  let ha2 := md5 (method ++ ":" ++ uri)
  let response :=
    if strTruthy challenge.qop then
      md5 (ha1 ++ ":" ++ challenge.nonce ++ ":" ++ nc ++ ":" ++ cnonce ++ ":auth:" ++ ha2)
    else
      md5 (ha1 ++ ":" ++ challenge.nonce ++ ":" ++ ha2)
  let base := "Digest username=\"" ++ cred.username ++ "\", realm=\"" ++ challenge.realm
    ++ "\", nonce=\"" ++ challenge.nonce ++ "\", uri=\"" ++ uri
    ++ "\", response=\"" ++ response ++ "\""
  let withQop :=
    if strTruthy challenge.qop then
      base ++ ", qop=auth, nc=" ++ nc ++ ", cnonce=\"" ++ cnonce ++ "\""
    else base
  let withOpq :=
    if strTruthy challenge.opq then
      withQop ++ ", opaque=\"" ++ challenge.opq.getD "" ++ "\""
    else withQop
  let header := if algorithm != "MD5" then withOpq ++ ", algorithm=" ++ algorithm else withOpq
  (⟨header, nc, cnonce, response⟩,
   { s with nonceCount := nonceCount, rngIdx := s.rngIdx + 1 })

/-- An HTTP response as seen by `makeRequest`: status code, the
`www-authenticate` header when present, the raw body text, and the outcome
of `JSON.parse` on the body (`none` = malformed). -/
structure HttpResp (T : Type) where
  status : Nat
  wwwAuthenticate : Option String := none
  bodyText : String := ""
  bodyJson : Option (ApiResponse T) := none

/-- One authentication attempt sent over the wire: either a Basic header
or a Digest header computed against a particular challenge. -/
inductive Attempt where
  | basic
  | digest (challenge : DigestChallenge) (d : DigestAuth)

/-- The tail of `Api2NClient.request` applied to whichever response
survived the authentication dance: map 401 to the terminal authentication
failure, other non-200 statuses to an HTTP error carrying a 200-character
body excerpt, and otherwise return the parsed envelope (a `success:false`
envelope is passed through, only logged). -/
def finishRequest {T : Type} (resp : HttpResp T) : Except String (ApiResponse T) :=
  if resp.status == 401 then
    Except.error "Authentication failed - check username/password"
  else if resp.status != 200 then
    Except.error ("HTTP error: " ++ toString resp.status ++ " - " ++ resp.bodyText.take 200)
  else
    match resp.bodyJson with
    | some r => Except.ok r
    | none => Except.error "Failed to parse response"

/-- The part of `Api2NClient.request` after the first attempt has been
issued (`att1` with post-attempt state `s1`, answered by `resp1`): on a
401 carrying a `WWW-Authenticate` header, parse it; if it parses, cache
the challenge, reset `nonceCount`, and retry exactly once with a freshly
computed Digest header (answered by `resp2`); if it does not parse, fail
with the unsupported-auth error.  Anything else goes straight to the
status/body handling of `finishRequest`. -/
def requestAfterFirst {T : Type} (md5 : String → String) (cred : Credentials)
    (supply : Nat → String) (s1 : AuthState) (path : String) (att1 : Attempt)
    (resp1 resp2 : HttpResp T) :
    AuthState × List Attempt × Except String (ApiResponse T) :=
  if resp1.status == 401 && strTruthy resp1.wwwAuthenticate then
    match parseDigestChallenge (resp1.wwwAuthenticate.getD "") with
    | some c =>
      let s2 : AuthState := { s1 with lastDigestChallenge := some c, nonceCount := 0 }
      let r2 := generateDigestAuth md5 cred supply "GET" path c s2
      (r2.2, [att1, Attempt.digest c r2.1], finishRequest resp2)
    | none =>
      (s1, [att1], Except.error "Authentication failed - unsupported auth method")
  else
    (s1, [att1], finishRequest resp1)

/-- `Api2NClient.request` (the Digest-aware variant): with a cached
challenge the first attempt carries a Digest header computed from it,
otherwise a Basic header; then the 401/retry handling of
`requestAfterFirst`.  Returns the new auth state, the trace of attempts
actually issued, and the result. -/
def request {T : Type} (md5 : String → String) (cred : Credentials)
    (supply : Nat → String) (s : AuthState) (path : String)
    (resp1 resp2 : HttpResp T) :
    AuthState × List Attempt × Except String (ApiResponse T) :=
  match s.lastDigestChallenge with
  | some c0 =>
    let r1 := generateDigestAuth md5 cred supply "GET" path c0 s
    requestAfterFirst md5 cred supply r1.2 path (Attempt.digest c0 r1.1) resp1 resp2
  | none =>
    requestAfterFirst md5 cred supply s path Attempt.basic resp1 resp2

/-- `response.error?.message || fallback`: the error message when present
and truthy, the fallback otherwise. -/
def errMsgOr {T : Type} (resp : ApiResponse T) (fallback : String) : String :=
  if strTruthy (resp.error.map (·.message)) then (resp.error.map (·.message)).getD ""
  else fallback

/-- `response.error?.code` of an envelope. -/
def respErrCode {T : Type} (resp : ApiResponse T) : Option Int :=
  resp.error.map (·.code)

/-- Stand-in for Node's `JSON.stringify` on a response envelope (used only
inside fallback error messages; no property here depends on its exact
rendering). -/
def jsonStringify {T : Type} (_resp : ApiResponse T) : String :=
  "(response)"

/-- Join query-string fragments with `&`. -/
def joinAmp : List String → String
  | [] => ""
  | [s] => s
  | s :: rest => s ++ "&" ++ joinAmp rest

/-- Path plus query string as built from the endpoint and parameter list
(the percent-encoding applied by Node's `URL`/`URLSearchParams` is
abstracted away; none of the values used here require it). -/
def buildPath (endpoint : String) (params : List (String × String)) : String :=
  match params with
  | [] => endpoint
  | _ => endpoint ++ "?" ++ joinAmp (params.map (fun kv => kv.1 ++ "=" ++ kv.2))

/-- The whole mutable state of `Api2NClient`: auth state plus the current
subscription id (`null` = not subscribed). -/
structure ClientState where
  auth : AuthState := {}
  subscriptionId : Option String := none
deriving Repr

/-- Which device API call an operation issued (used as the call trace of
the higher-level operations). -/
inductive ApiCall where
  | pull
  | subscribe
  | unsubscribe
  | switchCtrl
deriving DecidableEq, Repr

/-- `result` of the subscribe endpoint (`SubscriptionResponse`). -/
structure SubscriptionResponse where
  id : String
deriving DecidableEq, Repr

/-- The JSON scalars that can appear in an event's `params` record
(`string | number | boolean`). -/
inductive ParamVal where
  | str (s : String)
  | num (n : Int)
  | bool (b : Bool)
deriving DecidableEq, Repr

/-- An event from a log pull (`LogEvent` in `settings.ts`). -/
structure LogEvent where
  id : Nat := 0
  utcTime : Nat := 0
  upTime : Nat := 0
  event : String
  params : List (String × ParamVal) := []
deriving DecidableEq, Repr

/-- `result` of the pull endpoint: the `events` array may be absent. -/
structure PullResult where
  events : Option (List LogEvent) := none
deriving DecidableEq, Repr

/-- `SwitchAction` of `settings.ts`. -/
inductive SwitchAction where
  | on
  | off
  | trigger
deriving DecidableEq, Repr

/-- The query-string rendering of a switch action. -/
def SwitchAction.render : SwitchAction → String
  | .on => "on"
  | .off => "off"
  | .trigger => "trigger"

/-- Path of the subscribe call with its fixed `include` list. -/
def logSubscribePath : String :=
  buildPath "/api/log/subscribe"
    [("include", "KeyPressed,KeyReleased,SwitchStateChanged,MotionDetected")]

/-- Path of the unsubscribe call for a subscription id. -/
def logUnsubscribePath (id : String) : String :=
  buildPath "/api/log/unsubscribe" [("id", id)]

/-- Path of the pull call for a subscription id and timeout. -/
def logPullPath (id : String) (timeout : Nat) : String :=
  buildPath "/api/log/pull" [("id", id), ("timeout", toString timeout)]

/-- Path of the switch-control call. -/
def switchCtrlPath (switchId : Nat) (action : SwitchAction) : String :=
  buildPath "/api/switch/ctrl" [("switch", toString switchId), ("action", action.render)]

/-- `Api2NClient.subscribeToEvents`: request the subscription; on a
well-formed successful envelope store and return the id, otherwise throw
with the error message (or a serialization of the response). -/
def subscribeToEvents (md5 : String → String) (cred : Credentials)
    (supply : Nat → String) (s : ClientState)
    (resp1 resp2 : HttpResp SubscriptionResponse) :
    ClientState × List ApiCall × Except String String :=
  let r := request md5 cred supply s.auth logSubscribePath resp1 resp2
  let s1 : ClientState := { s with auth := r.1 }
  match r.2.2 with
  | Except.error e => (s1, [ApiCall.subscribe], Except.error e)
  | Except.ok resp =>
    if !resp.success || resp.result.isNone then
      (s1, [ApiCall.subscribe],
       Except.error ("Failed to subscribe to events: " ++ errMsgOr resp (jsonStringify resp)))
    else
      let id := (resp.result.map (·.id)).getD ""
      ({ s1 with subscriptionId := some id }, [ApiCall.subscribe], Except.ok id)

/-- `Api2NClient.unsubscribeFromEvents`: a no-op when no subscription id
is held; otherwise issue the unsubscribe request, swallow any failure, and
clear the subscription id in every case (the `finally` block of the
source).  The operation never throws. -/
def unsubscribeFromEvents (md5 : String → String) (cred : Credentials)
    (supply : Nat → String) (s : ClientState)
    (resp1 resp2 : HttpResp Unit) : ClientState × List ApiCall :=
  match s.subscriptionId with
  | none => (s, [])
  | some id =>
    let r := request md5 cred supply s.auth (logUnsubscribePath id) resp1 resp2
    ({ s with auth := r.1, subscriptionId := none }, [ApiCall.unsubscribe])

/-- `Api2NClient.pullEvents`: throw when not subscribed; otherwise pull.
On an envelope that is not a success-with-result: if the error code is 12
(subscription expired), clear the subscription id, resubscribe (the nested
`subscribeToEvents` is answered by `subResp1`/`subResp2`) and return the
empty list — but a failure of that resubscribe propagates; any other
failed envelope throws.  On success return the events (absent array =
empty). -/
def pullEvents (md5 : String → String) (cred : Credentials)
    (supply : Nat → String) (s : ClientState) (timeout : Nat)
    (resp1 resp2 : HttpResp PullResult)
    (subResp1 subResp2 : HttpResp SubscriptionResponse) :
    ClientState × List ApiCall × Except String (List LogEvent) :=
  match s.subscriptionId with
  | none => (s, [], Except.error "Not subscribed to events")
  | some id =>
    let r := request md5 cred supply s.auth (logPullPath id timeout) resp1 resp2
    let s1 : ClientState := { s with auth := r.1 }
    match r.2.2 with
    | Except.error e => (s1, [ApiCall.pull], Except.error e)
    | Except.ok resp =>
      if resp.success && resp.result.isSome then
        (s1, [ApiCall.pull], Except.ok ((resp.result.bind (·.events)).getD []))
      else if respErrCode resp == some 12 then
        let s2 : ClientState := { s1 with subscriptionId := none }
        let sub := subscribeToEvents md5 cred supply s2 subResp1 subResp2
        match sub.2.2 with
        | Except.ok _ => (sub.1, [ApiCall.pull, ApiCall.subscribe], Except.ok [])
        | Except.error e => (sub.1, [ApiCall.pull, ApiCall.subscribe], Except.error e)
      else
        (s1, [ApiCall.pull],
         Except.error ("Failed to pull events: " ++ errMsgOr resp "Unknown error"))

/-- `result` of the switch-control endpoint. -/
structure SwitchCtrlResult where
  result : Bool
deriving DecidableEq, Repr

/-- `Api2NClient.setSwitchState`: issue the control request; a
`success:false` envelope throws with the device's error message (the
numeric code is not part of the thrown error), a successful envelope
completes without error. -/
def setSwitchState (md5 : String → String) (cred : Credentials)
    (supply : Nat → String) (s : ClientState) (switchId : Nat)
    (action : SwitchAction) (resp1 resp2 : HttpResp SwitchCtrlResult) :
    ClientState × Except String Unit :=
  let r := request md5 cred supply s.auth (switchCtrlPath switchId action) resp1 resp2
  let s1 : ClientState := { s with auth := r.1 }
  match r.2.2 with
  | Except.error e => (s1, Except.error e)
  | Except.ok resp =>
    if !resp.success then
      (s1, Except.error ("Failed to control switch: " ++ errMsgOr resp "Unknown error"))
    else
      (s1, Except.ok ())

/-- `Api2NClient.isSubscribed`. -/
def isSubscribed (s : ClientState) : Bool :=
  s.subscriptionId.isSome

/-- Look up a key in an event's `params` record. -/
def getParam (ps : List (String × ParamVal)) (k : String) : Option ParamVal :=
  (ps.find? (fun kv => kv.1 == k)).map (·.2)

/-- JavaScript `String(v)` over a possibly-absent param value. -/
def jsString : Option ParamVal → String
  | some (.str s) => s
  | some (.num n) => toString n
  | some (.bool b) => if b then "true" else "false"
  | none => "undefined"

/-- JavaScript strict equality `v === w` between a possibly-absent param
value and a scalar. -/
def pvEq (v : Option ParamVal) (w : ParamVal) : Bool :=
  match v with
  | some x => x == w
  | none => false

/-- The semantic outcome of `Intercom2NAccessory.handleEvent` for one
event (the side effects of each branch of the source's `switch` are
abstracted into one action per branch). -/
inductive EventAction where
  | doorbellTrigger
  | keyIgnored
  | lockUnsecured
  | lockSecured
  | motionNoted
  | inputDoorbell
  | inputIgnored
  | callDoorbell
  | callIgnored
  | unhandled
deriving DecidableEq, Repr

/-- `Intercom2NAccessory.handleEvent` as a pure classification:
`doorbellButtonCfg` is `accessory.context.doorbellButton` (absent or empty
falls back to `"1"` via `||`).  A `KeyPressed` event triggers the doorbell
exactly when `String(event.params.key)` equals the effective button id. -/
def handleEvent (doorbellButtonCfg : Option String) (e : LogEvent) : EventAction :=
  let doorbellButton := if strTruthy doorbellButtonCfg then doorbellButtonCfg.getD "" else "1"
  if e.event == "KeyPressed" then
    if jsString (getParam e.params "key") == doorbellButton then .doorbellTrigger
    else .keyIgnored
  else if e.event == "SwitchStateChanged" then
    if pvEq (getParam e.params "state") (.bool true)
        || pvEq (getParam e.params "state") (.str "true") then .lockUnsecured
    else .lockSecured
  else if e.event == "MotionDetected" then .motionNoted
  else if e.event == "InputChanged" then
    if pvEq (getParam e.params "state") (.bool true)
        || pvEq (getParam e.params "state") (.str "true")
        || pvEq (getParam e.params "state") (.num 1)
        || pvEq (getParam e.params "state") (.str "1") then .inputDoorbell
    else .inputIgnored
  else if e.event == "CallStateChanged" then
    if pvEq (getParam e.params "state") (.str "ringing")
        || pvEq (getParam e.params "state") (.str "connecting")
        || pvEq (getParam e.params "direction") (.str "outgoing") then .callDoorbell
    else .callIgnored
  else .unhandled

end Api2N

namespace Camera

/-- A pending stream session (`SessionInfo` in `cameraSource.ts`): the
negotiated transport parameters stored by `prepareStream`. -/
structure SessionInfo where
  address : String
  videoPort : Nat
  videoCryptoSuite : Nat
  videoSRTP : List Nat
  videoSSRC : Nat
  audioPort : Nat
  audioCryptoSuite : Nat
  audioSRTP : List Nat
  audioSSRC : Nat
deriving DecidableEq, Repr

/-- An active stream session (`ActiveSession`): the owned process handles
and sockets, each possibly absent.  Handles are identified by opaque
numeric ids. -/
structure ActiveSession where
  videoProcess : Option Nat := none
  audioProcess : Option Nat := none
  videoSocket : Option Nat := none
  audioSocket : Option Nat := none
  videoReturnSocket : Option Nat := none
  audioReturnSocket : Option Nat := none
deriving DecidableEq, Repr

/-- Association-list lookup, mirroring JavaScript `Map.get`. -/
def alGet {A : Type} (m : List (String × A)) (k : String) : Option A :=
  (m.find? (fun kv => kv.1 == k)).map (·.2)

/-- Association-list update, mirroring JavaScript `Map.set` (replace the
existing entry or append a new one). -/
def alSet {A : Type} (m : List (String × A)) (k : String) (v : A) :
    List (String × A) :=
  match m with
  | [] => [(k, v)]
  | kv :: t => if kv.1 == k then (k, v) :: t else kv :: alSet t k v

/-- Association-list removal, mirroring JavaScript `Map.delete`. -/
def alErase {A : Type} (m : List (String × A)) (k : String) :
    List (String × A) :=
  m.filter (fun kv => kv.1 != k)

/-- The session tables of `CameraSource`. -/
structure CameraState where
  pendingSessions : List (String × SessionInfo) := []
  activeSessions : List (String × ActiveSession) := []
deriving Repr

/-- An externally visible effect of a camera operation: spawning the
transcoder, killing a process, or closing a socket. -/
inductive CamEffect where
  | spawn (args : List String)
  | kill (pid : Nat) (signal : String)
  | closeSocket (sid : Nat)
deriving DecidableEq, Repr

/-- The audio leg of a prepare request. -/
structure AudioPrepare where
  port : Nat
  srtpCryptoSuite : Nat
  srtpKey : List Nat
  srtpSalt : List Nat
deriving DecidableEq, Repr

/-- A `PrepareStreamRequest` as consumed by `prepareStream`. -/
structure PrepareRequest where
  sessionID : String
  targetAddress : String
  videoPort : Nat
  videoSrtpCryptoSuite : Nat
  videoSrtpKey : List Nat
  videoSrtpSalt : List Nat
  audio : Option AudioPrepare := none
deriving DecidableEq, Repr

/-- The negotiated parameters echoed back by `prepareStream`. -/
structure PrepareStreamResponse where
  videoPort : Nat
  videoSSRC : Nat
  videoSrtpKey : List Nat
  videoSrtpSalt : List Nat
  audio : Option (Nat × Nat × List Nat × List Nat) := none
deriving DecidableEq, Repr

/-- `CameraSource.prepareStream`: build the `SessionInfo` (fresh SSRCs are
supplied by the HAP generator, modelled as the inputs `vssrc`/`assrc`),
store it as a pending session, and echo the transport parameters back. -/
def prepareStream (s : CameraState) (req : PrepareRequest) (vssrc assrc : Nat) :
    CameraState × PrepareStreamResponse :=
  let info : SessionInfo := {
    address := req.targetAddress
    videoPort := req.videoPort
    videoCryptoSuite := req.videoSrtpCryptoSuite
    videoSRTP := req.videoSrtpKey ++ req.videoSrtpSalt
    videoSSRC := vssrc
    audioPort := (req.audio.map (·.port)).getD 0
    audioCryptoSuite := (req.audio.map (·.srtpCryptoSuite)).getD 0
    audioSRTP := (req.audio.map (fun a => a.srtpKey ++ a.srtpSalt)).getD []
    audioSSRC := assrc }
  ({ s with pendingSessions := alSet s.pendingSessions req.sessionID info },
   { videoPort := req.videoPort
     videoSSRC := vssrc
     videoSrtpKey := req.videoSrtpKey
     videoSrtpSalt := req.videoSrtpSalt
     audio := req.audio.map (fun a => (a.port, assrc, a.srtpKey, a.srtpSalt)) })

/-- The base64 alphabet (Node `Buffer.prototype.toString('base64')`). -/
def base64Table : List Char :=
  "ABCDEFGHIJKLMNOPQRSTUVWXYZabcdefghijklmnopqrstuvwxyz0123456789+/".toList

/-- One base64 digit. -/
def base64Char (n : Nat) : Char :=
  (base64Table.drop n).headD 'A'

/-- Standard base64 rendering of a byte list (Node
`Buffer.prototype.toString('base64')`). -/
def base64Encode : List Nat → String
  | [] => ""
  | [b0] =>
    String.mk [base64Char (b0 / 4 % 64), base64Char (b0 % 4 * 16), '=', '=']
  | [b0, b1] =>
    String.mk [base64Char (b0 / 4 % 64), base64Char (b0 % 4 * 16 + b1 / 16 % 16),
      base64Char (b1 % 16 * 4), '=']
  | b0 :: b1 :: b2 :: rest =>
    String.mk [base64Char (b0 / 4 % 64), base64Char (b0 % 4 * 16 + b1 / 16 % 16),
      base64Char (b1 % 16 * 4 + b2 / 64 % 4), base64Char (b2 % 64)]
      ++ base64Encode rest

/-- `CameraSource.buildFfmpegArgs`: the transcoder command line — RTSP
input, codec options, bitrate/buffer/maxrate pinned to the requested
bitrate, keyframe interval `2 × fps`, scale filter, and the SRTP output
leg. -/
def buildFfmpegArgs (rtspUrl videoCodec : String) (sessionInfo : SessionInfo)
    (width height fps videoBitrate : Nat) : List String :=
  let args := ["-hide_banner", "-loglevel", "warning",
    "-fflags", "nobuffer", "-flags", "low_delay",
    "-probesize", "32000", "-analyzeduration", "1000000",
    "-rtsp_transport", "tcp", "-i", rtspUrl,
    "-an", "-vcodec", videoCodec, "-pix_fmt", "yuv420p", "-r", toString fps]
  let args := if videoCodec == "libx264" then
      args ++ ["-preset", "ultrafast", "-tune", "zerolatency",
        "-profile:v", "baseline", "-level:v", "3.1"]
    else args
  let args := args ++ ["-b:v", toString videoBitrate ++ "k",
    "-bufsize", toString videoBitrate ++ "k",
    "-maxrate", toString videoBitrate ++ "k",
    "-g", toString (fps * 2),
    "-vf", "scale=" ++ toString width ++ ":" ++ toString height]
  args ++ ["-payload_type", "99", "-ssrc", toString sessionInfo.videoSSRC,
    "-f", "rtp", "-srtp_out_suite", "AES_CM_128_HMAC_SHA1_80",
    "-srtp_out_params", base64Encode sessionInfo.videoSRTP,
    "srtp://" ++ sessionInfo.address ++ ":" ++ toString sessionInfo.videoPort
      ++ "?rtcpport=" ++ toString sessionInfo.videoPort ++ "&pkt_size=1316"]

/-- The video parameters of a start request (`VideoInfo`). -/
structure VideoInfo where
  width : Nat
  height : Nat
  fps : Nat
  maxBitRate : Nat
deriving DecidableEq, Repr

/-- `CameraSource.startStream`: without a matching pending session, log
the "No session info" error and return with nothing spawned and nothing
stored; otherwise consume the pending record, spawn the transcoder
(`ffmpegPid` models the handle returned by `spawn`) and store the active
session.  The returned `Option String` is the logged error, the effect
list records any spawn performed. -/
def startStream (rtspUrl videoCodec : String) (s : CameraState)
    (sessionId : String) (videoReq : VideoInfo) (ffmpegPid : Nat) :
    CameraState × List CamEffect × Option String :=
  match alGet s.pendingSessions sessionId with
  | none => (s, [], some "No session info")
  | some info =>
    let args := buildFfmpegArgs rtspUrl videoCodec info
      videoReq.width videoReq.height videoReq.fps videoReq.maxBitRate
    let active : ActiveSession := { videoProcess := some ffmpegPid }
    ({ pendingSessions := alErase s.pendingSessions sessionId,
       activeSessions := alSet s.activeSessions sessionId active },
     [CamEffect.spawn args], none)

/-- `CameraSource.stopStream`: if an active session exists, kill its
processes with SIGKILL and close its sockets, then remove it; in every
case also remove any pending session for the id.  Total — never throws. -/
def stopStream (s : CameraState) (sessionId : String) :
    CameraState × List CamEffect :=
  match alGet s.activeSessions sessionId with
  | some active =>
    let effs :=
      (match active.videoProcess with
       | some p => [CamEffect.kill p "SIGKILL"]
       | none => []) ++
      (match active.audioProcess with
       | some p => [CamEffect.kill p "SIGKILL"]
       | none => []) ++
      (match active.videoSocket with
       | some sk => [CamEffect.closeSocket sk]
       | none => []) ++
      (match active.audioSocket with
       | some sk => [CamEffect.closeSocket sk]
       | none => [])
    ({ pendingSessions := alErase s.pendingSessions sessionId,
       activeSessions := alErase s.activeSessions sessionId }, effs)
  | none =>
    ({ s with pendingSessions := alErase s.pendingSessions sessionId }, [])

end Camera

namespace Fix

open Api2N Camera

/-- A stand-in hash for concrete evaluations (the digest structure is
independent of the hash implementation). -/
def md5F : String → String := fun s => "H(" ++ s ++ ")"

/-- A concrete client-nonce supply. -/
def supplyF : Nat → String := fun i => "cn" ++ toString i

/-- Concrete credentials. -/
def credF : Credentials := ⟨"admin", "pw"⟩

/-- A concrete digest challenge header. -/
def chalHdrF : String := "Digest realm=\"2N\", nonce=\"srvnonce\", qop=\"auth\""

/-- The challenge parsed from `chalHdrF`. -/
def chalF : DigestChallenge := ⟨"2N", "srvnonce", some "auth", none, none⟩

/-- A 401 response carrying the digest challenge. -/
def r401hdrF : HttpResp Unit := ⟨401, some chalHdrF, "", none⟩

/-- A 401 response with no challenge header. -/
def r401plainF : HttpResp Unit := ⟨401, none, "", none⟩

/-- A pull response whose envelope carries device error code 12. -/
def pullErr12F : HttpResp PullResult :=
  ⟨200, none, "", some ⟨false, none, some ⟨12, "subscription not found"⟩⟩⟩

/-- A successful subscribe response with id `newid`. -/
def subOkF : HttpResp SubscriptionResponse :=
  ⟨200, none, "", some ⟨true, some ⟨"newid"⟩, none⟩⟩

/-- A failing subscribe response (`success:false`, message `denied`). -/
def subBadF : HttpResp SubscriptionResponse :=
  ⟨200, none, "", some ⟨false, none, some ⟨13, "denied"⟩⟩⟩

/-- A client currently subscribed with id `abc`. -/
def subbedF : ClientState := ⟨{}, some "abc"⟩

/-- A successful subscribe response with id `abc123`. -/
def subAbcF : HttpResp SubscriptionResponse :=
  ⟨200, none, "", some ⟨true, some ⟨"abc123"⟩, none⟩⟩

/-- The `KeyPressed` event with `params.key = "1"`. -/
def keyEvF : LogEvent := ⟨0, 0, 0, "KeyPressed", [("key", .str "1")]⟩

/-- A pull response delivering exactly `keyEvF`. -/
def pullKeyF : HttpResp PullResult :=
  ⟨200, none, "", some ⟨true, some ⟨some [keyEvF]⟩, none⟩⟩

/-- A successful switch-control response. -/
def ctrlOkF : HttpResp SwitchCtrlResult := ⟨200, none, "", some ⟨true, none, none⟩⟩

/-- A `success:false` switch-control response with error code 5 and
message `busy`. -/
def ctrlBusyF : HttpResp SwitchCtrlResult :=
  ⟨200, none, "", some ⟨false, none, some ⟨5, "busy"⟩⟩⟩

/-- A concrete prepare request for session `sid1`. -/
def preqF : PrepareRequest := ⟨"sid1", "10.0.0.2", 5000, 0, [1, 2], [3], none⟩

/-- Concrete video parameters. -/
def vInfoF : VideoInfo := ⟨640, 480, 30, 300⟩

/-- A camera state with one active session `sid1` owning process 42. -/
def withActiveF : CameraState := ⟨[], [("sid1", { videoProcess := some 42 })]⟩

/-- The `SessionInfo` stored by `prepareStream` for `preqF` with SSRCs
77/88. -/
def infoF : SessionInfo := ⟨"10.0.0.2", 5000, 0, [1, 2, 3], 77, 0, 0, [], 88⟩

/-- A failing (HTTP 500) response for the unsubscribe request. -/
def r500F : HttpResp Unit := ⟨500, none, "oops", none⟩

end Fix

/-- Does `needle` occur as a contiguous substring of the second list? -/
def listContainsSub (needle : List Char) : List Char → Bool
  | [] => needle.isEmpty
  | c :: rest => needle.isPrefixOf (c :: rest) || listContainsSub needle rest

/-- Does `sub` occur as a substring of `s`? -/
def strMentions (sub s : String) : Bool :=
  listContainsSub sub.toList s.toList

section Lemmas

open Api2N Camera

theorem alGet_alErase_self {A : Type} (m : List (String × A)) (k : String) :
    alGet (alErase m k) k = none := by
  induction m with
  | nil => rfl
  | cons kv t ih =>
    by_cases h : kv.1 = k
    · simp [alErase, alGet, List.filter_cons, h, ih]
    · simp [alErase, alGet, List.filter_cons, List.find?_cons, h, bne_iff_ne, ih]

theorem alErase_of_alGet_none {A : Type} (m : List (String × A)) (k : String)
    (h : alGet m k = none) : alErase m k = m := by
  induction m with
  | nil => rfl
  | cons kv t ih =>
    by_cases hk : kv.1 = k
    · simp [alGet, hk] at h
    · have ht : alGet t k = none := by simpa [alGet, hk] using h
      simpa [alErase, hk, bne_iff_ne] using ih ht

theorem alErase_alSet {A : Type} (m : List (String × A)) (k : String) (v : A) :
    alErase (alSet m k v) k = alErase m k := by
  induction m with
  | nil => simp [alSet, alErase]
  | cons kv t ih =>
    by_cases h : kv.1 = k
    · simp [alSet, alErase, h, bne_iff_ne]
    · simpa [alSet, alErase, h, bne_iff_ne] using ih

theorem alGet_alSet_self {A : Type} (m : List (String × A)) (k : String) (v : A) :
    alGet (alSet m k v) k = some v := by
  induction m with
  | nil => simp [alSet, alGet]
  | cons kv t ih =>
    by_cases h : kv.1 = k
    · simp [alSet, alGet, h]
    · simpa [alSet, alGet, h] using ih

theorem hexDigitsAux_length_le (fuel : Nat) :
    ∀ n k : Nat, n < 16 ^ k → (hexDigitsAux fuel n).length ≤ k := by
  induction fuel with
  | zero =>
    intro n k _
    simp [hexDigitsAux]
  | succ fuel ih =>
    intro n k h
    by_cases h0 : n = 0
    · simp [hexDigitsAux, h0]
    · cases k with
      | zero =>
        exact absurd (Nat.lt_one_iff.mp (by simpa using h)) h0
      | succ k =>
        have hd : n / 16 < 16 ^ k := by
          rw [Nat.div_lt_iff_lt_mul (by norm_num : (0 : Nat) < 16)]
          calc n < 16 ^ (k + 1) := h
            _ = 16 ^ k * 16 := by ring
        have := ih (n / 16) k hd
        simp only [hexDigitsAux, h0, if_neg, List.length_append, List.length_cons,
          List.length_nil, ite_false]
        omega

theorem natToHexStr_length_le (n : Nat) (h : n < 16 ^ 8) : (natToHexStr n).length ≤ 8 := by
  by_cases h0 : n = 0
  · subst h0; decide
  · rw [natToHexStr, if_neg h0]
    show (hexDigits n).length ≤ 8
    exact hexDigitsAux_length_le n n 8 h

theorem padStartZeros_length (s : String) (len : Nat) :
    (padStartZeros s len).length = max len s.length := by
  show (List.replicate (len - s.length) '0' ++ s.toList).length = _
  have hts : s.toList.length = s.length := rfl
  simp only [List.length_append, List.length_replicate, hts]
  omega

theorem stopStream_pending_none (s : CameraState) (sid : String) :
    alGet (stopStream s sid).1.pendingSessions sid = none := by
  unfold stopStream
  cases alGet s.activeSessions sid <;> simp [alGet_alErase_self]

theorem stopStream_active_none (s : CameraState) (sid : String) :
    alGet (stopStream s sid).1.activeSessions sid = none := by
  unfold stopStream
  cases ha : alGet s.activeSessions sid with
  | none => simpa using ha
  | some a => simp [alGet_alErase_self]

theorem stopStream_noop (s : CameraState) (sid : String)
    (hp : alGet s.pendingSessions sid = none)
    (ha : alGet s.activeSessions sid = none) : stopStream s sid = (s, []) := by
  unfold stopStream
  rw [ha]
  simp [alErase_of_alGet_none _ _ hp]

end Lemmas

section CameraClaims

open Api2N Camera Fix

/-- C6: invoking `startStream` for a session identifier with no pending
record is an error ("No session info"): the state is unchanged (no active
record is created), no transcoding process is spawned; and the
Pending-to-Active transition happens only when a matching pending record
exists, which the transition consumes. -/
theorem c6_start_requires_pending (rtspUrl videoCodec : String)
    (s : CameraState) (sid : String) (v : VideoInfo) (pid : Nat) :
    (alGet s.pendingSessions sid = none →
      startStream rtspUrl videoCodec s sid v pid = (s, [], some "No session info")) ∧
    (∀ info, alGet s.pendingSessions sid = some info →
      startStream rtspUrl videoCodec s sid v pid =
        ({ pendingSessions := alErase s.pendingSessions sid,
           activeSessions := alSet s.activeSessions sid { videoProcess := some pid } },
         [CamEffect.spawn (buildFfmpegArgs rtspUrl videoCodec info
            v.width v.height v.fps v.maxBitRate)], none)) := by
  constructor
  · intro h
    unfold startStream
    rw [h]
  · intro info h
    unfold startStream
    rw [h]

/-- C6 witness: on the empty camera state, `startStream` for `sid1`
reports "No session info" and changes nothing; after a prepare, the same
start succeeds (no logged error). -/
theorem c6_witness :
    alGet (CameraState.pendingSessions {}) "sid1" = none ∧
    startStream "rtsp://h/mjpeg_stream" "libx264" {} "sid1" vInfoF 42 =
      ({}, [], some "No session info") ∧
    (startStream "rtsp://h/mjpeg_stream" "libx264" (prepareStream {} preqF 77 88).1
      "sid1" vInfoF 42).2.2 = none :=
  ⟨rfl, (c6_start_requires_pending "rtsp://h/mjpeg_stream" "libx264" {} "sid1" vInfoF 42).1 rfl,
   by rw [(c6_start_requires_pending "rtsp://h/mjpeg_stream" "libx264"
        (prepareStream {} preqF 77 88).1 "sid1" vInfoF 42).2 infoF rfl]⟩

/-- C7: `stopStream` is idempotent and total: after any call neither a
pending nor an active record exists for the identifier, an immediate
second call is a no-op with no effects, and a call on an identifier with
no pending and no active record is a no-op (the operation never throws —
it is a total function). -/
theorem c7_stop_idempotent (s : CameraState) (sid : String) :
    alGet (stopStream s sid).1.pendingSessions sid = none ∧
    alGet (stopStream s sid).1.activeSessions sid = none ∧
    stopStream (stopStream s sid).1 sid = ((stopStream s sid).1, []) ∧
    (alGet s.pendingSessions sid = none → alGet s.activeSessions sid = none →
      stopStream s sid = (s, [])) := by
  refine ⟨stopStream_pending_none s sid, stopStream_active_none s sid, ?_, ?_⟩
  · exact stopStream_noop _ _ (stopStream_pending_none s sid) (stopStream_active_none s sid)
  · intro hp ha
    exact stopStream_noop s sid hp ha

/-- C7 witness: stopping an active session `sid1` kills its process and
removes it; stopping again is a no-op with no effects. -/
theorem c7_witness :
    alGet (stopStream withActiveF "sid1").1.activeSessions "sid1" = none ∧
    stopStream (stopStream withActiveF "sid1").1 "sid1" =
      ((stopStream withActiveF "sid1").1, []) ∧
    stopStream {} "sid1" = ({}, []) :=
  ⟨(c7_stop_idempotent withActiveF "sid1").2.1,
   (c7_stop_idempotent withActiveF "sid1").2.2.1,
   (c7_stop_idempotent {} "sid1").2.2.2 rfl rfl⟩

/-- C8: `prepareStream` followed immediately by `stopStream` (no
intervening start, expressed as: no active record exists for the
identifier) removes the pending record, performs no process-termination
or socket-closing effect, and leaves the active-session table exactly as
it was. -/
theorem c8_prepare_then_stop_releases_pending (s : CameraState)
    (req : PrepareRequest) (vssrc assrc : Nat)
    (hact : alGet s.activeSessions req.sessionID = none) :
    (stopStream (prepareStream s req vssrc assrc).1 req.sessionID).2 = [] ∧
    alGet (stopStream (prepareStream s req vssrc assrc).1 req.sessionID).1.pendingSessions
      req.sessionID = none ∧
    (stopStream (prepareStream s req vssrc assrc).1 req.sessionID).1.activeSessions =
      s.activeSessions := by
  have h1 : (prepareStream s req vssrc assrc).1.activeSessions = s.activeSessions := rfl
  refine ⟨?_, stopStream_pending_none _ _, ?_⟩
  · unfold stopStream
    rw [h1, hact]
  · unfold stopStream
    rw [h1, hact]

/-- C8 witness: prepare then stop on the empty state for `sid1`: no
effects, pending record gone, active table untouched. -/
theorem c8_witness :
    alGet (CameraState.activeSessions {}) "sid1" = none ∧
    (stopStream (prepareStream {} preqF 77 88).1 "sid1").2 = [] ∧
    alGet (stopStream (prepareStream {} preqF 77 88).1 "sid1").1.pendingSessions "sid1" = none :=
  ⟨rfl, (c8_prepare_then_stop_releases_pending {} preqF 77 88 rfl).1,
   (c8_prepare_then_stop_releases_pending {} preqF 77 88 rfl).2.1⟩

end CameraClaims

section ClientClaims

open Api2N Fix

theorem parseDigestChallenge_empty : parseDigestChallenge "" = none := by
  decide

/-- C3: the digest response computed by `generateDigestAuth` is a
deterministic pure function of (username, realm, password, nonce, nc,
cnonce, qop): `HA1 = MD5(username:realm:password)`,
`HA2 = MD5(method:uri)`, response `MD5(HA1:nonce:nc:cnonce:auth:HA2)`
when `qop` is present (with `nc` rendered as 8 zero-padded hex digits,
for counter values fitting 8 hex digits) and `MD5(HA1:nonce:HA2)`
otherwise; two computations from states agreeing on the counter and
random-draw index yield identical results. -/
theorem c3_digest_response_deterministic (md5 : String → String)
    (cred : Credentials) (supply : Nat → String) (method uri : String)
    (ch : DigestChallenge) (s t : AuthState)
    (hn : s.nonceCount = t.nonceCount) (hr : s.rngIdx = t.rngIdx)
    (hbound : s.nonceCount + 1 < 16 ^ 8) :
    (generateDigestAuth md5 cred supply method uri ch s).1 =
      (generateDigestAuth md5 cred supply method uri ch t).1 ∧
    (generateDigestAuth md5 cred supply method uri ch s).1.response =
      (if strTruthy ch.qop then
        md5 (md5 (cred.username ++ ":" ++ ch.realm ++ ":" ++ cred.password) ++ ":" ++ ch.nonce
          ++ ":" ++ (generateDigestAuth md5 cred supply method uri ch s).1.nc
          ++ ":" ++ (generateDigestAuth md5 cred supply method uri ch s).1.cnonce
          ++ ":auth:" ++ md5 (method ++ ":" ++ uri))
      else
        md5 (md5 (cred.username ++ ":" ++ ch.realm ++ ":" ++ cred.password) ++ ":" ++ ch.nonce
          ++ ":" ++ md5 (method ++ ":" ++ uri))) ∧
    (generateDigestAuth md5 cred supply method uri ch s).1.nc =
      padStartZeros (natToHexStr (s.nonceCount + 1)) 8 ∧
    ((generateDigestAuth md5 cred supply method uri ch s).1.nc).length = 8 ∧
    (generateDigestAuth md5 cred supply method uri ch s).1.cnonce = supply s.rngIdx := by
  refine ⟨?_, ?_, ?_, ?_, ?_⟩
  · simp [generateDigestAuth, hn, hr]
  · by_cases hq : strTruthy ch.qop <;> simp [generateDigestAuth, hq]
  · simp [generateDigestAuth]
  · have h1 : (generateDigestAuth md5 cred supply method uri ch s).1.nc =
        padStartZeros (natToHexStr (s.nonceCount + 1)) 8 := by
      simp [generateDigestAuth]
    rw [h1, padStartZeros_length]
    have := natToHexStr_length_le _ hbound
    omega
  · simp [generateDigestAuth]

/-- C3 witness: the concrete digest computation from the initial state
has an 8-digit `nc` and draws `cn0` as its client nonce. -/
theorem c3_witness :
    (0 : Nat) + 1 < 16 ^ 8 ∧
    ((generateDigestAuth md5F credF supplyF "GET" "/api/system/info" chalF {}).1.nc).length = 8 ∧
    (generateDigestAuth md5F credF supplyF "GET" "/api/system/info" chalF {}).1.cnonce =
      supplyF 0 :=
  ⟨by norm_num,
   (c3_digest_response_deterministic md5F credF supplyF "GET" "/api/system/info" chalF {} {}
     rfl rfl (by norm_num)).2.2.2.1,
   (c3_digest_response_deterministic md5F credF supplyF "GET" "/api/system/info" chalF {} {}
     rfl rfl (by norm_num)).2.2.2.2⟩

/-- C1: with no cached challenge the first attempt carries Basic; a 401
first response with a parseable Digest challenge header caches the
challenge and retries exactly once with a Digest header (the attempt
trace is exactly `[basic, digest]`); if the retry response is also a 401
the request fails with the terminal authentication error — there is no
third attempt. -/
theorem c1_basic_then_digest_retry_once {T : Type} (md5 : String → String)
    (cred : Credentials) (supply : Nat → String) (s : AuthState)
    (path : String) (resp1 resp2 : HttpResp T)
    (hnone : s.lastDigestChallenge = none)
    (h401 : resp1.status = 401) (hdr : String)
    (hhdr : resp1.wwwAuthenticate = some hdr)
    (c : DigestChallenge) (hp : parseDigestChallenge hdr = some c) :
    (request md5 cred supply s path resp1 resp2).2.1 =
      [Attempt.basic, Attempt.digest c (generateDigestAuth md5 cred supply "GET" path c
        { s with lastDigestChallenge := some c, nonceCount := 0 }).1] ∧
    (request md5 cred supply s path resp1 resp2).1.lastDigestChallenge = some c ∧
    (resp2.status = 401 →
      (request md5 cred supply s path resp1 resp2).2.2 =
        Except.error "Authentication failed - check username/password") := by
  have hne : hdr ≠ "" := by
    intro he
    rw [he, parseDigestChallenge_empty] at hp
    exact Option.noConfusion hp
  have hc : (resp1.status == 401 && strTruthy resp1.wwwAuthenticate) = true := by
    rw [h401, hhdr]
    simp [strTruthy, hne]
  have hmain : request md5 cred supply s path resp1 resp2 =
      ((generateDigestAuth md5 cred supply "GET" path c
          { s with lastDigestChallenge := some c, nonceCount := 0 }).2,
       [Attempt.basic, Attempt.digest c (generateDigestAuth md5 cred supply "GET" path c
          { s with lastDigestChallenge := some c, nonceCount := 0 }).1],
       finishRequest resp2) := by
    simp only [request, hnone]
    simp only [requestAfterFirst, hc, if_true]
    rw [hhdr]
    simp only [Option.getD_some, hp]
  refine ⟨?_, ?_, ?_⟩
  · rw [hmain]
  · rw [hmain]
    simp [generateDigestAuth]
  · intro h2
    rw [hmain]
    simp [finishRequest, h2]

/-- C1 witness: the concrete no-cached-challenge run against a 401 with a
digest challenge followed by a second 401 yields exactly two attempts and
the terminal authentication error. -/
theorem c1_witness :
    (AuthState.lastDigestChallenge {} = none) ∧
    r401hdrF.status = 401 ∧
    parseDigestChallenge chalHdrF = some chalF ∧
    r401plainF.status = 401 ∧
    (request md5F credF supplyF {} "/api/system/info" r401hdrF r401plainF).2.2 =
      Except.error "Authentication failed - check username/password" :=
  ⟨rfl, rfl, by decide, rfl,
   (c1_basic_then_digest_retry_once md5F credF supplyF {} "/api/system/info" r401hdrF
     r401plainF rfl rfl chalHdrF rfl chalF (by decide)).2.2 rfl⟩

/-- C4: the nonce counter and challenge-cache invariants: every digest
computation increments the counter exactly once and consumes exactly one
fresh client-nonce draw (and does not itself change the cached
challenge); whenever `request` caches a newly parsed challenge the
counter is reset to 0 before the retry's digest computation, so the retry
uses `nc = 00000001` and leaves the counter at 1; the cached challenge
after that retry is exactly the newly parsed one (the state holds at most
one challenge — an `Option` field). -/
theorem c4_nonce_counter_invariants :
    (∀ (md5 : String → String) (cred : Credentials) (supply : Nat → String)
      (method uri : String) (ch : DigestChallenge) (s : AuthState),
      (generateDigestAuth md5 cred supply method uri ch s).2.nonceCount = s.nonceCount + 1 ∧
      (generateDigestAuth md5 cred supply method uri ch s).2.rngIdx = s.rngIdx + 1 ∧
      (generateDigestAuth md5 cred supply method uri ch s).1.cnonce = supply s.rngIdx ∧
      (generateDigestAuth md5 cred supply method uri ch s).2.lastDigestChallenge =
        s.lastDigestChallenge) ∧
    (∀ (T : Type) (md5 : String → String) (cred : Credentials) (supply : Nat → String)
      (s1 : AuthState) (path : String) (att1 : Attempt) (resp1 resp2 : HttpResp T)
      (hdr : String) (c : DigestChallenge),
      resp1.status = 401 → resp1.wwwAuthenticate = some hdr →
      parseDigestChallenge hdr = some c →
      (requestAfterFirst md5 cred supply s1 path att1 resp1 resp2).1.lastDigestChallenge =
        some c ∧
      (requestAfterFirst md5 cred supply s1 path att1 resp1 resp2).1.nonceCount = 1 ∧
      (requestAfterFirst md5 cred supply s1 path att1 resp1 resp2).2.1 =
        [att1, Attempt.digest c (generateDigestAuth md5 cred supply "GET" path c
          { s1 with lastDigestChallenge := some c, nonceCount := 0 }).1] ∧
      (generateDigestAuth md5 cred supply "GET" path c
        { s1 with lastDigestChallenge := some c, nonceCount := 0 }).1.nc = "00000001") := by
  constructor
  · intro md5 cred supply method uri ch s
    refine ⟨?_, ?_, ?_, ?_⟩ <;> simp [generateDigestAuth]
  · intro T md5 cred supply s1 path att1 resp1 resp2 hdr c h401 hhdr hp
    have hne : hdr ≠ "" := by
      intro he
      rw [he, parseDigestChallenge_empty] at hp
      exact Option.noConfusion hp
    have hc : (resp1.status == 401 && strTruthy resp1.wwwAuthenticate) = true := by
      rw [h401, hhdr]
      simp [strTruthy, hne]
    have hmain : requestAfterFirst md5 cred supply s1 path att1 resp1 resp2 =
        ((generateDigestAuth md5 cred supply "GET" path c
            { s1 with lastDigestChallenge := some c, nonceCount := 0 }).2,
         [att1, Attempt.digest c (generateDigestAuth md5 cred supply "GET" path c
            { s1 with lastDigestChallenge := some c, nonceCount := 0 }).1],
         finishRequest resp2) := by
      simp only [requestAfterFirst, hc, if_true]
      rw [hhdr]
      simp only [Option.getD_some, hp]
    refine ⟨?_, ?_, ?_, ?_⟩
    · rw [hmain]
      simp [generateDigestAuth]
    · rw [hmain]
      simp [generateDigestAuth]
    · rw [hmain]
    · simp [generateDigestAuth, padStartZeros, natToHexStr]
      decide

/-- C4 witness: the concrete caching retry leaves the counter at 1,
caches the parsed challenge, and uses `nc = 00000001`. -/
theorem c4_witness :
    r401hdrF.status = 401 ∧
    parseDigestChallenge chalHdrF = some chalF ∧
    (requestAfterFirst md5F credF supplyF {} "/api/system/info" Attempt.basic r401hdrF
      r401plainF).1.nonceCount = 1 ∧
    (generateDigestAuth md5F credF supplyF "GET" "/api/system/info" chalF {}).2.nonceCount = 1 :=
  ⟨rfl, by decide,
   (c4_nonce_counter_invariants.2 Unit md5F credF supplyF {} "/api/system/info" Attempt.basic
     r401hdrF r401plainF chalHdrF chalF rfl rfl (by decide)).2.1,
   (c4_nonce_counter_invariants.1 md5F credF supplyF "GET" "/api/system/info" chalF {}).1⟩

theorem subscribeToEvents_ok_id (md5 : String → String) (cred : Credentials)
    (supply : Nat → String) (st : ClientState)
    (subResp1 subResp2 : HttpResp SubscriptionResponse) (nid : String)
    (h : (subscribeToEvents md5 cred supply st subResp1 subResp2).2.2 = Except.ok nid) :
    (subscribeToEvents md5 cred supply st subResp1 subResp2).1.subscriptionId = some nid := by
  unfold subscribeToEvents at h ⊢
  cases hr : (request md5 cred supply st.auth logSubscribePath subResp1 subResp2).2.2 with
  | error e => simp [hr] at h
  | ok resp =>
    by_cases hc : (!resp.success || resp.result.isNone) = true
    · simp [hr, hc] at h
    · simp only [hr, hc] at h ⊢
      simp only [Bool.false_eq_true, if_false] at h ⊢
      rw [Except.ok.injEq] at h
      simp [h]

theorem subscribeToEvents_error_id (md5 : String → String) (cred : Credentials)
    (supply : Nat → String) (st : ClientState)
    (subResp1 subResp2 : HttpResp SubscriptionResponse) (e : String)
    (h : (subscribeToEvents md5 cred supply st subResp1 subResp2).2.2 = Except.error e) :
    (subscribeToEvents md5 cred supply st subResp1 subResp2).1.subscriptionId =
      st.subscriptionId := by
  unfold subscribeToEvents at h ⊢
  cases hr : (request md5 cred supply st.auth logSubscribePath subResp1 subResp2).2.2 with
  | error e2 => simp [hr]
  | ok resp =>
    by_cases hc : (!resp.success || resp.result.isNone) = true
    · simp [hr, hc]
    · simp [hr, hc] at h

section C2

open Camera

/-- C2 counterexample: the claim asserts every pull whose envelope
carries error code 12 returns an empty event list without surfacing an
exception; but when the resubscribe attempt itself fails (here the device
answers the subscribe with a `success:false` envelope, message `denied`),
`pullEvents` propagates that failure as an error instead of returning the
empty list. -/
theorem c2_pull_error12_counterexample :
    (pullEvents md5F credF supplyF subbedF 5 pullErr12F pullErr12F subBadF subBadF).2.2 =
      Except.error "Failed to subscribe to events: denied" ∧
    (pullEvents md5F credF supplyF subbedF 5 pullErr12F pullErr12F subBadF subBadF).2.2 ≠
      Except.ok ([] : List LogEvent) := by
  refine ⟨rfl, ?_⟩
  intro h
  rw [show (pullEvents md5F credF supplyF subbedF 5 pullErr12F pullErr12F subBadF subBadF).2.2 =
    Except.error "Failed to subscribe to events: denied" from rfl] at h
  exact Except.noConfusion h

/-- C2 (amended): a pull whose envelope carries error code 12 clears the
local subscription id and makes exactly one resubscribe attempt; if the
resubscribe succeeds the call returns the empty event list (and holds the
new id), but if the resubscribe attempt itself fails, that failure
propagates to the caller (with the subscription id left cleared). -/
theorem c2_pull_error12_resubscribe (md5 : String → String) (cred : Credentials)
    (supply : Nat → String) (s : ClientState) (sid : String) (timeout : Nat)
    (resp1 resp2 : HttpResp PullResult)
    (subResp1 subResp2 : HttpResp SubscriptionResponse)
    (resp : ApiResponse PullResult)
    (hsub : s.subscriptionId = some sid)
    (hreq : (request md5 cred supply s.auth (logPullPath sid timeout) resp1 resp2).2.2 =
      Except.ok resp)
    (hfail : (resp.success && resp.result.isSome) = false)
    (hcode : respErrCode resp = some 12) :
    (pullEvents md5 cred supply s timeout resp1 resp2 subResp1 subResp2).2.1 =
      [ApiCall.pull, ApiCall.subscribe] ∧
    (∀ nid,
      (subscribeToEvents md5 cred supply
          ⟨(request md5 cred supply s.auth (logPullPath sid timeout) resp1 resp2).1, none⟩
          subResp1 subResp2).2.2 = Except.ok nid →
      (pullEvents md5 cred supply s timeout resp1 resp2 subResp1 subResp2).2.2 =
        Except.ok [] ∧
      (pullEvents md5 cred supply s timeout resp1 resp2 subResp1 subResp2).1.subscriptionId =
        some nid) ∧
    (∀ e,
      (subscribeToEvents md5 cred supply
          ⟨(request md5 cred supply s.auth (logPullPath sid timeout) resp1 resp2).1, none⟩
          subResp1 subResp2).2.2 = Except.error e →
      (pullEvents md5 cred supply s timeout resp1 resp2 subResp1 subResp2).2.2 =
        Except.error e ∧
      (pullEvents md5 cred supply s timeout resp1 resp2 subResp1 subResp2).1.subscriptionId =
        none) := by
  have hstep : pullEvents md5 cred supply s timeout resp1 resp2 subResp1 subResp2 =
      (match (subscribeToEvents md5 cred supply
          ⟨(request md5 cred supply s.auth (logPullPath sid timeout) resp1 resp2).1, none⟩
          subResp1 subResp2).2.2 with
       | Except.ok _ =>
         ((subscribeToEvents md5 cred supply
            ⟨(request md5 cred supply s.auth (logPullPath sid timeout) resp1 resp2).1, none⟩
            subResp1 subResp2).1,
          [ApiCall.pull, ApiCall.subscribe], Except.ok [])
       | Except.error e =>
         ((subscribeToEvents md5 cred supply
            ⟨(request md5 cred supply s.auth (logPullPath sid timeout) resp1 resp2).1, none⟩
            subResp1 subResp2).1,
          [ApiCall.pull, ApiCall.subscribe], Except.error e)) := by
    simp only [pullEvents, hsub, hreq, hfail, hcode]
    simp
  refine ⟨?_, ?_, ?_⟩
  · rw [hstep]
    cases (subscribeToEvents md5 cred supply
        ⟨(request md5 cred supply s.auth (logPullPath sid timeout) resp1 resp2).1, none⟩
        subResp1 subResp2).2.2 <;> rfl
  · intro nid hok
    rw [hstep, hok]
    exact ⟨rfl, subscribeToEvents_ok_id md5 cred supply _ subResp1 subResp2 nid hok⟩
  · intro e herr
    rw [hstep, herr]
    refine ⟨rfl, ?_⟩
    rw [subscribeToEvents_error_id md5 cred supply _ subResp1 subResp2 e herr]

/-- C2 witness: the concrete expired pull with a succeeding resubscribe
returns the empty list and stores the new id. -/
theorem c2_witness :
    ClientState.subscriptionId subbedF = some "abc" ∧
    (pullEvents md5F credF supplyF subbedF 5 pullErr12F pullErr12F subOkF subOkF).2.2 =
      Except.ok [] ∧
    (pullEvents md5F credF supplyF subbedF 5 pullErr12F pullErr12F subOkF subOkF).1.subscriptionId =
      some "newid" :=
  ⟨rfl,
   ((c2_pull_error12_resubscribe md5F credF supplyF subbedF "abc" 5 pullErr12F pullErr12F
      subOkF subOkF ⟨false, none, some ⟨12, "subscription not found"⟩⟩
      rfl rfl rfl rfl).2.1 "newid" rfl).1,
   ((c2_pull_error12_resubscribe md5F credF supplyF subbedF "abc" 5 pullErr12F pullErr12F
      subOkF subOkF ⟨false, none, some ⟨12, "subscription not found"⟩⟩
      rfl rfl rfl rfl).2.1 "newid" rfl).2⟩

end C2

section C5C9C10

/-- C5 counterexample: against the envelope
`\x7bsuccess:false, error:\x7bcode:5, message:"busy"\x7d\x7d` the
operation raises the bare message-only error
`Failed to control switch: busy`; the numeric error code 5 appears
nowhere in the raised error, so no DeviceError carrying code 5 is
raised. -/
theorem c5_switch_error_counterexample :
    (setSwitchState md5F credF supplyF {} 1 SwitchAction.trigger ctrlBusyF ctrlBusyF).2 =
      Except.error "Failed to control switch: busy" ∧
    strMentions "5" "Failed to control switch: busy" = false := by
  exact ⟨rfl, by decide⟩

/-- C5 (amended): `setSwitchState(1, "trigger")` against `\x7bsuccess:true\x7d`
completes without error; against
`\x7bsuccess:false, error:\x7bcode:5, message:"busy"\x7d\x7d` it raises an
error carrying the device's error message (`busy`) but not the numeric
code. -/
theorem c5_switch_state_scenario (md5 : String → String) (cred : Credentials)
    (supply : Nat → String) (s : ClientState) (resp2 : HttpResp SwitchCtrlResult) :
    (setSwitchState md5 cred supply s 1 SwitchAction.trigger ctrlOkF resp2).2 =
      Except.ok () ∧
    (setSwitchState md5 cred supply s 1 SwitchAction.trigger ctrlBusyF resp2).2 =
      Except.error "Failed to control switch: busy" := by
  constructor <;>
  · cases h : s.auth.lastDigestChallenge <;>
      simp [setSwitchState, request, requestAfterFirst, finishRequest, h, ctrlOkF, ctrlBusyF,
        errMsgOr, strTruthy]

/-- C9: after a successful subscribe storing id `abc123`, a pull
returning the single event `KeyPressed` with `params.key = "1"` delivers
exactly that event, and the accessory classifies it as a doorbell trigger
precisely when the configured (non-empty) doorbell button id equals
`"1"`. -/
theorem c9_doorbell_classification (md5 : String → String) (cred : Credentials)
    (supply : Nat → String) (btn : String) (hbtn : btn ≠ "") :
    (subscribeToEvents md5 cred supply {} subAbcF subAbcF).1.subscriptionId =
      some "abc123" ∧
    (subscribeToEvents md5 cred supply {} subAbcF subAbcF).2.2 = Except.ok "abc123" ∧
    (pullEvents md5 cred supply (subscribeToEvents md5 cred supply {} subAbcF subAbcF).1 1
        pullKeyF pullKeyF subAbcF subAbcF).2.2 = Except.ok [keyEvF] ∧
    (handleEvent (some btn) keyEvF = EventAction.doorbellTrigger ↔ btn = "1") := by
  have hsub : subscribeToEvents md5 cred supply {} subAbcF subAbcF =
      (⟨{}, some "abc123"⟩, [ApiCall.subscribe], Except.ok "abc123") := by
    simp [subscribeToEvents, request, requestAfterFirst, finishRequest, subAbcF]
  refine ⟨?_, ?_, ?_, ?_⟩
  · rw [hsub]
  · rw [hsub]
  · rw [hsub]
    simp [pullEvents, request, requestAfterFirst, finishRequest, pullKeyF, keyEvF]
  · by_cases hb : btn = "1"
    · subst hb
      simp [handleEvent, strTruthy, getParam, jsString, keyEvF]
    · simp [handleEvent, strTruthy, hbtn, getParam, jsString, keyEvF, hb, Ne.symm hb]

/-- C9 witness: with the configured button id `"1"` the key-press event
is classified as a doorbell trigger, and the pull after the subscribe
delivers it. -/
theorem c9_witness :
    ("1" : String) ≠ "" ∧
    handleEvent (some "1") keyEvF = EventAction.doorbellTrigger ∧
    (pullEvents md5F credF supplyF
        (subscribeToEvents md5F credF supplyF {} subAbcF subAbcF).1 1
        pullKeyF pullKeyF subAbcF subAbcF).2.2 = Except.ok [keyEvF] :=
  ⟨by decide,
   ((c9_doorbell_classification md5F credF supplyF "1" (by decide)).2.2.2).mpr rfl,
   (c9_doorbell_classification md5F credF supplyF "1" (by decide)).2.2.1⟩

/-- C10: `unsubscribeFromEvents` never raises (it is a total function for
every device response, failures being swallowed) and always leaves the
client unsubscribed: the subscription id is `none` afterwards and
`isSubscribed` reports false; with no id held it is a no-op issuing no
request, and with an id held it issues exactly the unsubscribe call. -/
theorem c10_unsubscribe_clears (md5 : String → String) (cred : Credentials)
    (supply : Nat → String) (s : ClientState) (resp1 resp2 : HttpResp Unit) :
    (unsubscribeFromEvents md5 cred supply s resp1 resp2).1.subscriptionId = none ∧
    isSubscribed (unsubscribeFromEvents md5 cred supply s resp1 resp2).1 = false ∧
    (s.subscriptionId = none →
      unsubscribeFromEvents md5 cred supply s resp1 resp2 = (s, [])) ∧
    (∀ id, s.subscriptionId = some id →
      (unsubscribeFromEvents md5 cred supply s resp1 resp2).2 = [ApiCall.unsubscribe]) := by
  cases h : s.subscriptionId with
  | none => simp [unsubscribeFromEvents, isSubscribed, h]
  | some id => simp [unsubscribeFromEvents, isSubscribed, h]

/-- C10 witness: unsubscribing while holding id `abc` against a failing
(HTTP 500) device response still clears the id and issues the call;
unsubscribing with no id held is a no-op. -/
theorem c10_witness :
    ClientState.subscriptionId subbedF = some "abc" ∧
    (unsubscribeFromEvents md5F credF supplyF subbedF r500F r500F).1.subscriptionId = none ∧
    (unsubscribeFromEvents md5F credF supplyF subbedF r500F r500F).2 = [ApiCall.unsubscribe] ∧
    unsubscribeFromEvents md5F credF supplyF {} r500F r500F = ({}, []) :=
  ⟨rfl,
   (c10_unsubscribe_clears md5F credF supplyF subbedF r500F r500F).1,
   (c10_unsubscribe_clears md5F credF supplyF subbedF r500F r500F).2.2.2 "abc" rfl,
   (c10_unsubscribe_clears md5F credF supplyF {} r500F r500F).2.2.1 rfl⟩

end C5C9C10

end ClientClaims
